import Mathlib

/-!
Shallow embedding of the rt-module request/response multiplexer
(src/src/rtc.py, the polled half-duplex variant `RTConnection`, and
src/src/rtws.py, the duplex variant `RTWebSocket`, with the waiter
objects of src/src/utils.py), together with theorems settling the
frozen claims about it.

Conventions of the embedding:
* Python dicts that the code uses in insertion order are association
  lists `List (String × _)`; assignment is `assocSet` (update in place
  or append), `del` is `assocErase`, membership test is `assocLookup`.
* `time()` and `token_hex(n)` are opaque string supplies drawn from an
  `Entropy` record whose index advances by one per mint.
* A `DataEvent` slot is `Option (Option Packet)`: `none` means the
  event was never set, `some none` means it was set with Python
  `None`, `some (some p)` means it was set with packet `p`.
* Python exceptions escaping a modelled function are `Except String`.
-/

/-- JSON-ish payload values carried in the `data` field of packets. -/
inductive Val
  | vnull
  | vstr (s : String)
  | vnat (n : Nat)
  | vpair (a b : Val)
deriving DecidableEq, Repr

/-- Python `str()` of a payload value, as used by f-string interpolation
in `RTWebSocket.request` (only the string case is exercised there). -/
def pyStr : Val → String
  | Val.vnull => "None"
  | Val.vstr s => s
  | Val.vnat n => Nat.repr n
  | Val.vpair a b => "(" ++ pyStr a ++ ", " ++ pyStr b ++ ")"

/-- Index of the first occurrence of character `c` in a character list,
`none` when absent. -/
def findCharIdx : List Char → Char → Option Nat
  | [], _ => none
  | a :: rest, c => if a = c then some 0 else (findCharIdx rest c).map (· + 1)

/-- Python `s.find(c)` for a one-character needle: first index, or -1. -/
def pyFind (s : String) (c : Char) : Int :=
  match findCharIdx s.data c with
  | some n => Int.ofNat n
  | none => -1

/-- Normalisation of one Python slice bound against length `n`:
negative indices count from the end, and bounds are clamped to `[0, n]`. -/
def pyNormIdx (n : Nat) (i : Int) : Nat :=
  if i < 0 then ((n : Int) + i).toNat else min i.toNat n

/-- Python `s[a:b]` on character indices (as in `nonce[5:nonce.find(",")]`). -/
def pySlice (s : String) (a b : Int) : String :=
  String.mk (((s.data).take (pyNormIdx s.data.length b)).drop (pyNormIdx s.data.length a))

/-- `rtc.detect_nonce_name`: recover the endpoint name from a session
nonce, literally `nonce[5:nonce.find(",")]`. -/
def detect_nonce_name (nonce : String) : String :=
  pySlice nonce 5 (pyFind nonce (','))

/-- `rtc.create_session_nonce`: the minted token is the f-string
`Name:{name},Time:{time()},Nonce:{token_hex(nonce_length)}`; the clock
reading and the hex nonce enter as opaque strings. -/
def create_session_nonce (name timeStr hexStr : String) : String :=
  "Name:" ++ name ++ ",Time:" ++ timeStr ++ ",Nonce:" ++ hexStr

section AssocList

variable {α : Type}

/-- Python `d[k]` as an `Option`: first binding of `k`. -/
def assocLookup (k : String) : List (String × α) → Option α
  | [] => none
  | (k', v) :: rest => if k' = k then some v else assocLookup k rest

/-- Python `d[k] = v`: overwrite the existing binding in place, else append. -/
def assocSet (k : String) (v : α) : List (String × α) → List (String × α)
  | [] => [(k, v)]
  | (k', v') :: rest => if k' = k then (k, v) :: rest else (k', v') :: assocSet k v rest

/-- Python `del d[k]` (on dicts, which hold each key at most once). -/
def assocErase (k : String) : List (String × α) → List (String × α)
  | [] => []
  | (k', v) :: rest => if k' = k then assocErase k rest else (k', v) :: assocErase k rest

theorem assocLookup_set_self (k : String) (v : α) (l : List (String × α)) :
    assocLookup k (assocSet k v l) = some v := by
  induction l with
  | nil => simp [assocSet, assocLookup]
  | cons hd tl ih =>
    cases hd with
    | mk k' v' =>
      by_cases h : k' = k
      · simp [assocSet, assocLookup, h]
      · simp [assocSet, assocLookup, h, ih]

theorem assocLookup_erase_self (k : String) (l : List (String × α)) :
    assocLookup k (assocErase k l) = none := by
  induction l with
  | nil => simp [assocErase, assocLookup]
  | cons hd tl ih =>
    cases hd with
    | mk k' v' =>
      by_cases h : k' = k
      · simp [assocErase, h, ih]
      · simp [assocErase, assocLookup, h, ih]

end AssocList

/-- Helper for `findCharIdx` over a prefix that misses the needle. -/
theorem findCharIdx_append_of_not_mem (c : Char) (l₁ l₂ : List Char) (h : c ∉ l₁) :
    findCharIdx (l₁ ++ l₂) c = (findCharIdx l₂ c).map (· + l₁.length) := by
  induction l₁ with
  | nil => simp [Option.map_id']
  | cons a rest ih =>
    have hne : ¬ a = c := by
      intro hac
      exact h (by simp [hac])
    have hrest : c ∉ rest := fun hc => h (List.mem_cons_of_mem _ hc)
    show findCharIdx (a :: (rest ++ l₂)) c = _
    simp only [findCharIdx, hne, if_false]
    rw [ih hrest]
    cases findCharIdx l₂ c with
    | none => rfl
    | some n =>
      simp only [Option.map_some', List.length_cons]
      exact congrArg some (by omega)

/-- The first comma of a freshly minted nonce sits right after the name. -/
theorem pyFind_create_comma (name timeStr hexStr : String)
    (h : (',') ∉ name.data) :
    pyFind (create_session_nonce name timeStr hexStr) (',') =
      Int.ofNat (5 + name.data.length) := by
  unfold pyFind create_session_nonce
  have hdata : ("Name:" ++ name ++ ",Time:" ++ timeStr ++ ",Nonce:" ++ hexStr).data
      = ("Name:".data ++ name.data) ++
        ((",Time:" ++ timeStr ++ ",Nonce:" ++ hexStr).data) := by
    simp [String.data_append]
  rw [hdata]
  have hpre : (',') ∉ ("Name:".data ++ name.data) := by
    intro hmem
    rcases List.mem_append.mp hmem with hh | hh
    · simp [String.data] at hh
    · exact h hh
  rw [findCharIdx_append_of_not_mem _ _ _ hpre]
  have hcomma : (",Time:" ++ timeStr ++ ",Nonce:" ++ hexStr).data
      = (',') :: ("Time:" ++ timeStr ++ ",Nonce:" ++ hexStr).data := by
    simp [String.data_append]
  rw [hcomma]
  simp [findCharIdx, String.data_append, String.data]
  omega

/-- Rebuilding a string from its character list is the identity. -/
theorem strMkData (s : String) : String.mk s.data = s := by
  cases s
  rfl

/-- A Python slice `[5:5+len(mid)]` of a string whose first five
characters are a fixed header cuts out exactly `mid`. -/
theorem pySlice_exact (pre mid post : List Char) (hpre : pre.length = 5) :
    pySlice (String.mk ((pre ++ mid) ++ post)) 5 (Int.ofNat (5 + mid.length)) =
      String.mk mid := by
  have hd : (String.mk ((pre ++ mid) ++ post)).data = (pre ++ mid) ++ post := rfl
  unfold pySlice
  rw [hd]
  have hlen : ((pre ++ mid) ++ post).length = (5 + mid.length) + post.length := by
    simp [List.length_append, hpre]
    omega
  have hb : pyNormIdx (((pre ++ mid) ++ post).length) (Int.ofNat (5 + mid.length)) =
      5 + mid.length := by
    unfold pyNormIdx
    have h0 : ¬ Int.ofNat (5 + mid.length) < 0 := not_lt.mpr (Int.ofNat_nonneg _)
    have ht : (Int.ofNat (5 + mid.length)).toNat = 5 + mid.length := rfl
    rw [if_neg h0, ht, hlen]
    omega
  have ha : pyNormIdx (((pre ++ mid) ++ post).length) 5 = 5 := by
    unfold pyNormIdx
    have h0 : ¬ (5 : Int) < 0 := by norm_num
    rw [if_neg h0, hlen]
    omega
  rw [hb, ha]
  have htake : ((pre ++ mid) ++ post).take (5 + mid.length) = pre ++ mid := by
    have hl : (pre ++ mid).length = 5 + mid.length := by
      simp [List.length_append, hpre]
    rw [← hl, List.take_left]
  rw [htake]
  have hdrop : (pre ++ mid).drop 5 = mid := by
    rw [← hpre, List.drop_left]
  rw [hdrop]

/-- Parsing a freshly minted polled-variant token recovers the minting
endpoint's name, provided the name contains no comma. -/
theorem detect_create_session_nonce (name timeStr hexStr : String)
    (h : (',') ∉ name.data) :
    detect_nonce_name (create_session_nonce name timeStr hexStr) = name := by
  unfold detect_nonce_name
  rw [pyFind_create_comma name timeStr hexStr h]
  have hdata : (create_session_nonce name timeStr hexStr).data
      = ("Name:".data ++ name.data) ++
        (",Time:" ++ timeStr ++ ",Nonce:" ++ hexStr).data := by
    simp [create_session_nonce, String.data_append, List.append_assoc]
  have hs : create_session_nonce name timeStr hexStr
      = String.mk (("Name:".data ++ name.data) ++
          (",Time:" ++ timeStr ++ ",Nonce:" ++ hexStr).data) := by
    rw [← hdata, strMkData]
  rw [hs]
  rw [pySlice_exact ("Name:".data) name.data
    ((",Time:" ++ timeStr ++ ",Nonce:" ++ hexStr).data) rfl]

/-! ## Duplex variant: `RTWebSocket` (src/src/rtws.py) -/

/-- The declared `type` field of a wire packet
(`Literal["request", "response"]` in the source). -/
inductive PacketType
  | request
  | response
deriving DecidableEq, Repr

/-- The wire envelope `Packet` of the duplex variant: `status`, `type`,
`data`, `session`, `event`. -/
structure Packet where
  status : String
  type : PacketType
  data : Val
  session : String
  event : String
deriving DecidableEq, Repr

/-- The two queues owned by a connected `RTWebSocket`: the FIFO of
outgoing packets (`Queues.sending`) and the wait set mapping a session
token to a `DataEvent` slot (`Queues.waiting`).  A slot holds `none`
while the event is unset, `some none` once set with Python `None`, and
`some (some p)` once set with packet `p`. -/
structure WSState where
  sending : List Packet
  waiting : List (String × Option (Option Packet))
deriving DecidableEq, Repr

/-- Opaque supply standing for `time()` readings and `token_hex`
outputs; each mint consumes one index. -/
structure Entropy where
  times : Nat → String
  hexes : Nat → String
  idx : Nat

/-- `RTWebSocket.make_session`: the f-string
`RTWS.{self.name}[{time()},{token_hex(8)}]`, consuming one entropy index. -/
def make_session (name : String) (e : Entropy) : String × Entropy :=
  ("RTWS." ++ name ++ "[" ++ e.times e.idx ++ "," ++ e.hexes e.idx ++ "]",
   ⟨e.times, e.hexes, e.idx + 1⟩)

/-- The request packet built inside `RTWebSocket.request`. -/
def mkRequestPacket (session event : String) (args : Val) : Packet :=
  ⟨"Ok", PacketType.request, args, session, event⟩

/-- An atomic state operation of `RTWebSocket.request` before the wait:
putting a packet on the send queue, or arming a waiter in the wait set. -/
inductive WSOp
  | enqueue (p : Packet)
  | arm (s : String)
deriving DecidableEq, Repr

/-- Effect of one operation on the endpoint state (`Queue.put` appends;
arming assigns a fresh unset `DataEvent` under the session key). -/
def applyOp (st : WSState) : WSOp → WSState
  | WSOp.enqueue p => ⟨st.sending ++ [p], st.waiting⟩
  | WSOp.arm s => ⟨st.sending, assocSet s none st.waiting⟩

/-- The operations of `RTWebSocket.request` in source order: the packet
is put on `queues.sending` first, and only then is the waiter stored in
`queues.waiting`. -/
def requestOps (session event : String) (args : Val) : List WSOp :=
  [WSOp.enqueue (mkRequestPacket session event args), WSOp.arm session]

/-- State reached after the enqueue-and-arm half of `RTWebSocket.request`. -/
def requestPhase1 (st : WSState) (session event : String) (args : Val) : WSState :=
  (requestOps session event args).foldl applyOp st

/-- Index of the first operation satisfying a test. -/
def idxOf (p : WSOp → Bool) : List WSOp → Option Nat
  | [] => none
  | o :: os => if p o then some 0 else (idxOf p os).map (· + 1)

/-- Test for the arm operation. -/
def isArm : WSOp → Bool
  | WSOp.arm _ => true
  | _ => false

/-- Test for the enqueue operation. -/
def isEnqueue : WSOp → Bool
  | WSOp.enqueue _ => true
  | _ => false

/-- Whether a waiter is armed strictly before the packet is enqueued in
a given operation sequence. -/
def armedBeforeEnqueued (l : List WSOp) : Bool :=
  match idxOf isArm l, idxOf isEnqueue l with
  | some i, some j => decide (i < j)
  | _, _ => false

/-- How the `asyncio.wait_for` on the waiter in `RTWebSocket.request`
ends: a timeout, or the `DataEvent` resolving with `None` or a packet. -/
inductive WaitOutcome
  | timeout
  | resolved (d : Option Packet)
deriving DecidableEq, Repr

/-- The classification at the end of `RTWebSocket.request`: timeout and
`None` raise `RequestError`, an `Error` status raises `RequestError`
with the payload, otherwise the payload is returned.  The duplex
variant touches no state here (in particular the waiting entry is never
deleted). -/
def requestFinish : WaitOutcome → Except String Val
  | WaitOutcome.timeout => Except.error ("Failed to request: Timeout")
  | WaitOutcome.resolved none => Except.error ("Failed to request: Disconnected")
  | WaitOutcome.resolved (some p) =>
    if p.status = "Error" then Except.error ("Failed to request:\n" ++ pyStr p.data)
    else Except.ok p.data

/-- Whole-call model of `RTWebSocket.request`: mint the session, put
the packet, arm the waiter, then classify the wait outcome. -/
def requestRun (name : String) (st : WSState) (e : Entropy) (event : String)
    (args : Val) (outcome : WaitOutcome) : WSState × Entropy × Except String Val :=
  let minted := make_session name e
  (requestPhase1 st minted.1 event args, minted.2, requestFinish outcome)

/-- A Python exception, recorded as class name and message. -/
structure Exc where
  className : String
  msg : String
deriving DecidableEq, Repr

/-- Model of the standard library's `traceback.format_exc()`: a string
that always begins with the traceback header and ends with
`class: message`. -/
def format_exc (e : Exc) : String :=
  "Traceback (most recent call last):\n  ...\n" ++ e.className ++ ": " ++ e.msg

/-- A registered event handler: the call
`self.events[event](*data[0], **data[1])` (awaited when the handler is
a coroutine function) either returns a value or raises. -/
def RTWSHandler : Type := Val → Except Exc Val

/-- `RTWebSocket._make_response`: response envelope echoing the
request's `session` and `event`. -/
def _make_response (request : Packet) (data : Val) (status : String) : Packet :=
  ⟨status, PacketType.response, data, request.session, request.event⟩

/-- `RTWebSocket._process_request`: look up the handler (a miss raises
`AssertionError`, whose formatted traceback becomes the payload), run
it, and turn either outcome into the response packet that is put on the
send queue.  The function is total: no handler failure escapes it. -/
def _process_request (events : List (String × RTWSHandler)) (request : Packet) : Packet :=
  match assocLookup request.event events with
  | none =>
    _make_response request
      (Val.vstr (format_exc ⟨"AssertionError", "イベントが見つかりませんでした。"⟩)) ("Error")
  | some h =>
    match h request.data with
    | Except.ok v => _make_response request v ("Ok")
    | Except.error exc => _make_response request (Val.vstr (format_exc exc)) ("Error")

/-- Response half of `RTWebSocket._receiver_handler`: set the waiting
`DataEvent` if the session is present, otherwise do nothing at all. -/
def receiverOnResponse (st : WSState) (p : Packet) : WSState :=
  match assocLookup p.session st.waiting with
  | some _ => ⟨st.sending, assocSet p.session (some (some p)) st.waiting⟩
  | none => st

/-- One frame of `RTWebSocket._receiver_handler`: a `request`-typed
packet is dispatched to `_process_request` (whose response lands on the
send queue), anything else is treated as a response. -/
def receiverHandleFrame (events : List (String × RTWSHandler)) (st : WSState)
    (p : Packet) : WSState :=
  if p.type = PacketType.request then
    ⟨st.sending ++ [_process_request events p], st.waiting⟩
  else receiverOnResponse st p

/-- The receiver loop over a list of incoming frames. -/
def receiverRun (events : List (String × RTWSHandler)) (st : WSState)
    (frames : List Packet) : WSState :=
  frames.foldl (receiverHandleFrame events) st

/-- Number of `request`-typed frames in a list. -/
def countRequests (frames : List Packet) : Nat :=
  (frames.filter (fun p => decide (p.type = PacketType.request))).length

/-- Classification of frames in the duplex receiver: the `else` branch
of the `type == "request"` test is the response branch. -/
def rtwsIsResponseFrame (p : Packet) : Bool :=
  ! decide (p.type = PacketType.request)

/-- `RTWebSocket.clean`: when a `Queues` object exists and its wait set
is non-empty, set every waiting `DataEvent` with `None` and drop the
whole `Queues` object; otherwise do nothing.  Returns the new
`queues` attribute and the list of signals delivered. -/
def clean : Option WSState → Option WSState × List (String × Option Packet)
  | none => (none, [])
  | some st =>
    if st.waiting = [] then (some st, [])
    else (none, st.waiting.map (fun kv => (kv.1, none)))

/-! ## Polled half-duplex variant: `RTConnection` (src/src/rtc.py) -/

/-- The `Data` dictionary of the polled variant (`total=False`): the
optional keys are `Option`s; `status`, `data` and `message` are always
produced by the `response` helper. -/
structure RData where
  status : String
  data : Val
  message : String
  event_name : Option String
  session : Option String
deriving DecidableEq, Repr

/-- `rtc.response(status, data, message, **kwargs)` with no extra
keyword arguments. -/
def rtcResponseData (status : String) (data : Val) (message : String) : RData :=
  ⟨status, data, message, none, none⟩

/-- The side of a `TimedDataEvent.subject`: the entry is an outgoing
request or an outgoing response. -/
inductive SubjKind
  | request
  | response
deriving DecidableEq, Repr

/-- `utils.TimedDataEvent` as stored in `RTConnection.queues`:
creation time, the `sent` mark that `communicate` sets with `setattr`
(absent, i.e. `False`, at creation), the `subject` pair, and the
`DataEvent` slot (`none` while unset). -/
structure TDE where
  created_at : Nat
  sent : Bool
  subject : SubjKind × RData
  slot : Option RData
deriving DecidableEq, Repr

/-- A handler registered with `RTConnection.set_event`:
`self.events[event_name](data["data"])`, which returns or raises. -/
def RTCHandler : Type := Val → Except Exc Val

/-- The entry that `RTConnection.request` stores under the minted
session nonce: subject `("request", response("Ok", data, message,
event_name=event_name, session=session))`. -/
def rtcRequestTDE (now : Nat) (event_name session : String) (d : Val)
    (message : String) : TDE :=
  ⟨now, false, (SubjKind.request, ⟨"Ok", d, message, some event_name, some session⟩), none⟩

/-- `RTConnection.response`: store an outgoing response entry under the
request's session nonce, subject `("response", response(status, data,
message, session=session))`. -/
def rtcResponse (queues : List (String × TDE)) (now : Nat) (session : String)
    (d : Val) (status : String) (message : String) : List (String × TDE) :=
  assocSet session ⟨now, false, (SubjKind.response, ⟨status, d, message, none, some session⟩), none⟩ queues

/-- `RTConnection._wrap_error_handling`: await the handler coroutine;
on success respond with the returned value (default status `Ok`,
default message `Tired`), on any exception respond with status `Error`
and message `ClassName: message`.  Total: the exception never escapes
the task. -/
def _wrap_error_handling (queues : List (String × TDE)) (now : Nat)
    (coro : Except Exc Val) (session : String) : List (String × TDE) :=
  match coro with
  | Except.ok v => rtcResponse queues now session v ("Ok") ("Tired")
  | Except.error e =>
    rtcResponse queues now session Val.vnull ("Error") (e.className ++ ": " ++ e.msg)

/-- `RTConnection.on_request`: if the event is registered, run the
wrapped handler task (modelled to completion); otherwise respond
immediately with status `Error` and message `EventNotFound: <event>`.
A frame missing its `event_name` or `session` key raises `KeyError`. -/
def rtcOnRequest (events : List (String × RTCHandler)) (queues : List (String × TDE))
    (now : Nat) (d : RData) : Except String (List (String × TDE)) :=
  match d.event_name, d.session with
  | some ev, some s =>
    match assocLookup ev events with
    | some h => Except.ok (_wrap_error_handling queues now (h d.data) s)
    | none =>
      Except.ok (rtcResponse queues now s Val.vnull ("Error") ("EventNotFound: " ++ ev))
  | _, _ => Except.error ("KeyError")

/-- `RTConnection.on_response`: `self.queues[data["session"]].set(data)`;
an absent session key in the frame or in the wait set raises `KeyError`
(which the `communicate` loop turns into a teardown). -/
def rtcOnResponse (queues : List (String × TDE)) (d : RData) :
    Except String (List (String × TDE)) :=
  match d.session with
  | none => Except.error ("KeyError")
  | some s =>
    match assocLookup s queues with
    | none => Except.error ("KeyError: " ++ s)
    | some e => Except.ok (assocSet s ⟨e.created_at, e.sent, e.subject, some d⟩ queues)

/-- Frame classification in `RTConnection.communicate`: a decoded
non-`"Nothing"` frame is a response exactly when
`detect_nonce_name(data["session"]) == self.name`. -/
def rtcIsResponseFrame (name : String) (session : String) : Bool :=
  decide (detect_nonce_name session = name)

/-- The loop body of `RTConnection.get_queue`: fold over the items in
insertion order, keeping the entry with the strictly smallest
`created_at` seen so far. -/
def getQueueAux : List (String × TDE) → Nat → Option (String × TDE) → Option (String × TDE)
  | [], _, acc => acc
  | (k, v) :: rest, before, acc =>
    if v.created_at < before then getQueueAux rest v.created_at (some (k, v))
    else getQueueAux rest before acc

/-- `RTConnection.get_queue` (key and entry): starting bound is
`time() + 1`. -/
def get_queue (now : Nat) (queues : List (String × TDE)) : Option (String × TDE) :=
  getQueueAux queues (now + 1) none

/-- The send half of one first-turn iteration of
`RTConnection.communicate`: pick `get_queue()`; if it was not yet
marked `sent`, mark it and transmit its subject packet, else transmit
`"Nothing"` (`none` here); afterwards delete the entry iff its subject
is a response (a response entry with no `session` key would raise
`KeyError`). -/
def rtcFirstTurnSend (now : Nat) (queues : List (String × TDE)) :
    Except String (List (String × TDE) × Option RData) :=
  match get_queue now queues with
  | none => Except.ok (queues, none)
  | some (k, v) =>
    let marked :=
      if v.sent = false then assocSet k ⟨v.created_at, true, v.subject, v.slot⟩ queues
      else queues
    let wire := if v.sent = false then some v.subject.2 else none
    if v.subject.1 = SubjKind.response then
      match v.subject.2.session with
      | some s => Except.ok (assocErase s marked, wire)
      | none => Except.error ("KeyError")
    else Except.ok (marked, wire)

/-- The sentinel stored into every remaining waiter by the `finally`
block of `RTConnection.communicate`:
`response("Error", None, "Disconnected")`. -/
def rtcDisconnectData : RData :=
  rtcResponseData ("Error") Val.vnull ("Disconnected")

/-- The `finally` block of `RTConnection.communicate`: set every
remaining entry's `DataEvent` with the disconnect sentinel.  The
dictionary itself is not cleared.  Returns the new wait set and the
list of delivered signals. -/
def rtcDrain (queues : List (String × TDE)) :
    List (String × TDE) × List (String × RData) :=
  (queues.map (fun kv => (kv.1, ⟨kv.2.created_at, kv.2.sent, kv.2.subject, some rtcDisconnectData⟩)),
   queues.map (fun kv => (kv.1, rtcDisconnectData)))

/-- Result classification at the end of `RTConnection.request`:
status `Error` raises `RequestError(data["message"])`, otherwise
`data["data"]` is returned. -/
def rtcClassifyResult (d : RData) : Except String Val :=
  if d.status = "Error" then Except.error d.message else Except.ok d.data

/-- How the wait in `RTConnection.request` ends: `asyncio.TimeoutError`,
or the `TimedDataEvent` resolving with a `Data` dictionary. -/
inductive RTCOutcome
  | timeout
  | resolved (d : RData)
deriving DecidableEq, Repr

/-- First half of `RTConnection.request`: mint the nonce with
`create_session_nonce(self.name)` and store the armed request entry
under it.  Returns the new wait set, the advanced entropy and the
minted session. -/
def rtcRequestStart (name : String) (e : Entropy) (queues : List (String × TDE))
    (now : Nat) (event_name : String) (d : Val) (message : String) :
    List (String × TDE) × Entropy × String :=
  let session := create_session_nonce name (e.times e.idx) (e.hexes e.idx)
  (assocSet session (rtcRequestTDE now event_name session d message) queues,
   ⟨e.times, e.hexes, e.idx + 1⟩, session)

/-- Whole-call model of `RTConnection.request`: arm the entry, wait
(a timeout substitutes `response("Error", None, "Timeout",
session=session)`), then delete the session if still present and
classify the result. -/
def rtcRequestRun (name : String) (e : Entropy) (queues : List (String × TDE))
    (now : Nat) (event_name : String) (d : Val) (message : String)
    (outcome : RTCOutcome) : List (String × TDE) × Entropy × Except String Val :=
  let started := rtcRequestStart name e queues now event_name d message
  let dat : RData :=
    match outcome with
    | RTCOutcome.resolved dd => dd
    | RTCOutcome.timeout => ⟨"Error", Val.vnull, "Timeout", none, some started.2.2⟩
  (assocErase started.2.2 started.1, started.2.1, rtcClassifyResult dat)

/-- Invariant of the `get_queue` fold: the accumulator tracks the
strictly smallest `created_at` seen, so the result comes from the list
(or is the accumulator) and beats every entry below the bound. -/
theorem getQueueAux_spec (l : List (String × TDE)) :
    ∀ (before : Nat) (acc : Option (String × TDE)),
    (∀ a, acc = some a → a.2.created_at = before) →
    ((∀ a, acc = some a → (getQueueAux l before acc).isSome)
    ∧ ((∃ e ∈ l, e.2.created_at < before) → (getQueueAux l before acc).isSome)
    ∧ (getQueueAux l before acc = acc ∨ ∃ p ∈ l, getQueueAux l before acc = some p)
    ∧ (∀ p, getQueueAux l before acc = some p →
        (∀ a, acc = some a → p.2.created_at ≤ a.2.created_at)
        ∧ (∀ e ∈ l, e.2.created_at < before → p.2.created_at ≤ e.2.created_at))) := by
  induction l with
  | nil =>
    intro before acc hacc
    refine ⟨?_, ?_, ?_, ?_⟩
    · intro a ha
      simp [getQueueAux, ha]
    · intro h
      rcases h with ⟨e, he, _⟩
      exact absurd he (List.not_mem_nil e)
    · left
      rfl
    · intro p hp
      refine ⟨?_, ?_⟩
      · intro a ha
        rw [getQueueAux] at hp
        rw [ha] at hp
        cases hp
        exact le_refl _
      · intro e he
        exact absurd he (List.not_mem_nil e)
  | cons hd rest ih =>
    intro before acc hacc
    cases hd with
    | mk k v =>
      by_cases h : v.created_at < before
      · have hacc' : ∀ a, (some (k, v) : Option (String × TDE)) = some a →
            a.2.created_at = v.created_at := by
          intro a ha
          cases ha
          rfl
        have IH := ih v.created_at (some (k, v)) hacc'
        have hstep : getQueueAux ((k, v) :: rest) before acc
            = getQueueAux rest v.created_at (some (k, v)) := by
          rw [getQueueAux, if_pos h]
        refine ⟨?_, ?_, ?_, ?_⟩
        · intro a _
          rw [hstep]
          exact IH.1 (k, v) rfl
        · intro _
          rw [hstep]
          exact IH.1 (k, v) rfl
        · rw [hstep]
          rcases IH.2.2.1 with heq | ⟨p, hp, hpe⟩
          · right
            exact ⟨(k, v), List.mem_cons_self _ _, heq⟩
          · right
            exact ⟨p, List.mem_cons_of_mem _ hp, hpe⟩
        · intro p hp
          rw [hstep] at hp
          have hmin := IH.2.2.2 p hp
          have hpv : p.2.created_at ≤ v.created_at := hmin.1 (k, v) rfl
          refine ⟨?_, ?_⟩
          · intro a ha
            have := hacc a ha
            omega
          · intro e he hlt
            rcases List.mem_cons.mp he with rfl | hmem
            · exact hpv
            · by_cases hev : e.2.created_at < v.created_at
              · exact hmin.2 e hmem hev
              · omega
      · have IH := ih before acc hacc
        have hstep : getQueueAux ((k, v) :: rest) before acc
            = getQueueAux rest before acc := by
          rw [getQueueAux, if_neg h]
        refine ⟨?_, ?_, ?_, ?_⟩
        · intro a ha
          rw [hstep]
          exact IH.1 a ha
        · intro hex
          rw [hstep]
          rcases hex with ⟨e, he, hlt⟩
          rcases List.mem_cons.mp he with rfl | hmem
          · exact absurd hlt h
          · exact IH.2.1 ⟨e, hmem, hlt⟩
        · rw [hstep]
          rcases IH.2.2.1 with heq | ⟨p, hp, hpe⟩
          · left
            exact heq
          · right
            exact ⟨p, List.mem_cons_of_mem _ hp, hpe⟩
        · intro p hp
          rw [hstep] at hp
          have hmin := IH.2.2.2 p hp
          refine ⟨hmin.1, ?_⟩
          intro e he hlt
          rcases List.mem_cons.mp he with rfl | hmem
          · exact absurd hlt h
          · exact hmin.2 e hmem hlt

/-- On a non-empty wait set whose timestamps do not lie in the future,
`get_queue` returns an entry of the set with minimal `created_at`. -/
theorem get_queue_min (now : Nat) (queues : List (String × TDE))
    (hne : queues ≠ []) (hca : ∀ e ∈ queues, e.2.created_at ≤ now) :
    ∃ p, get_queue now queues = some p ∧ p ∈ queues
      ∧ ∀ e ∈ queues, p.2.created_at ≤ e.2.created_at := by
  have hspec := getQueueAux_spec queues (now + 1) none (by intro a ha; cases ha)
  have hex : ∃ e ∈ queues, e.2.created_at < now + 1 := by
    cases queues with
    | nil => exact absurd rfl hne
    | cons hd tl =>
      refine ⟨hd, List.mem_cons_self _ _, ?_⟩
      have := hca hd (List.mem_cons_self _ _)
      omega
  have hsome := hspec.2.1 hex
  rcases hp : getQueueAux queues (now + 1) none with _ | p
  · rw [hp] at hsome
    cases hsome
  · have hprov := hspec.2.2.1
    rw [hp] at hprov
    rcases hprov with heq | ⟨q, hq, hqe⟩
    · cases heq
    · cases hqe
      have hmin := hspec.2.2.2 p hp
      refine ⟨p, hp, hq, ?_⟩
      intro e he
      have := hca e he
      exact hmin.2 e he (by omega)

/-! ## Claim theorems -/

/-- Claim C10: for every endpoint name that contains no comma and every
time and nonce string, parsing a freshly minted token recovers the
minting endpoint's name:
`detect_nonce_name (create_session_nonce name ...) = name`. -/
theorem claimC10 (name timeStr hexStr : String) (h : (',') ∉ name.data) :
    detect_nonce_name (create_session_nonce name timeStr hexStr) = name :=
  detect_create_session_nonce name timeStr hexStr h

theorem claimC10_witness :
    ((',') ∉ "alice".data)
    ∧ detect_nonce_name (create_session_nonce ("alice") ("1700000000.0") ("ab12cd")) = "alice" :=
  ⟨by decide, claimC10 ("alice") ("1700000000.0") ("ab12cd") (by decide)⟩

/-- Claim C7: an incoming non-sentinel frame is classified as a
response in the duplex variant exactly when its `type` field is
`response`, and in the polled variant exactly when the endpoint name
embedded in its session token equals the receiving endpoint's own
name; otherwise it is dispatched as a request. -/
theorem claimC7 :
    (∀ p : Packet, rtwsIsResponseFrame p = true ↔ p.type = PacketType.response)
    ∧ (∀ own name timeStr hexStr : String, (',') ∉ name.data →
        (rtcIsResponseFrame own (create_session_nonce name timeStr hexStr) = true
          ↔ name = own)) := by
  constructor
  · intro p
    cases htype : p.type with
    | request => simp [rtwsIsResponseFrame, htype]
    | response => simp [rtwsIsResponseFrame, htype]
  · intro own name timeStr hexStr h
    simp [rtcIsResponseFrame, detect_create_session_nonce name timeStr hexStr h]

theorem claimC7_witness :
    ((',') ∉ "alice".data)
    ∧ (rtcIsResponseFrame ("alice") (create_session_nonce ("alice") ("1.0") ("ff")) = true
        ↔ "alice" = "alice") :=
  ⟨by decide, claimC7.2 ("alice") ("alice") ("1.0") ("ff") (by decide)⟩

/-- Claim C8: in every call to `request` the session token is minted
exactly once (exactly one entropy index is consumed), and the token
used as the wait-set key is identical to the `session` field of the
request packet that is enqueued, in both variants. -/
theorem claimC8 :
    (∀ name st e event args outcome,
      (requestRun name st e event args outcome).2.1.idx = e.idx + 1
      ∧ (requestRun name st e event args outcome).1.sending
          = st.sending ++ [mkRequestPacket (make_session name e).1 event args]
      ∧ (requestRun name st e event args outcome).1.waiting
          = assocSet (make_session name e).1 none st.waiting
      ∧ (mkRequestPacket (make_session name e).1 event args).session
          = (make_session name e).1)
    ∧ (∀ name e queues now event_name d message,
      (rtcRequestStart name e queues now event_name d message).2.1.idx = e.idx + 1
      ∧ assocLookup (rtcRequestStart name e queues now event_name d message).2.2
          (rtcRequestStart name e queues now event_name d message).1
          = some (rtcRequestTDE now event_name
              (rtcRequestStart name e queues now event_name d message).2.2 d message)
      ∧ (rtcRequestTDE now event_name
          (rtcRequestStart name e queues now event_name d message).2.2 d message).subject.2.session
          = some (rtcRequestStart name e queues now event_name d message).2.2) := by
  constructor
  · intro name st e event args outcome
    exact ⟨rfl, rfl, rfl, rfl⟩
  · intro name e queues now event_name d message
    exact ⟨rfl, assocLookup_set_self _ _ _, rfl⟩

/-- Claim C1 counterexample: at a concrete call of the duplex variant's
`request`, the packet is put on the send queue by operation 0 and the
waiter is armed only by operation 1, so the waiter is not inserted into
the wait set before the request packet becomes visible on the queue. -/
theorem claimC1_counterexample :
    idxOf isEnqueue (requestOps ("RTWS.alice[1,ab]") ("echo") Val.vnull) = some 0
    ∧ idxOf isArm (requestOps ("RTWS.alice[1,ab]") ("echo") Val.vnull) = some 1
    ∧ armedBeforeEnqueued (requestOps ("RTWS.alice[1,ab]") ("echo") Val.vnull) = false :=
  ⟨rfl, rfl, rfl⟩

/-- Claim C1 (amended): in the duplex variant `request` enqueues the
packet first and arms the waiter with the immediately following
operation (no operation in between, both effects present afterwards);
in the polled variant a single wait-set insertion arms the waiter and
makes the packet visible at once, so there a racing response can never
find the token absent. -/
theorem claimC1_amended :
    (∀ session event args,
      requestOps session event args
        = [WSOp.enqueue (mkRequestPacket session event args), WSOp.arm session])
    ∧ (∀ st session event args,
      requestPhase1 st session event args
        = ⟨st.sending ++ [mkRequestPacket session event args],
           assocSet session none st.waiting⟩)
    ∧ (∀ name e queues now event_name d message,
      (rtcRequestStart name e queues now event_name d message).1
        = assocSet (rtcRequestStart name e queues now event_name d message).2.2
            (rtcRequestTDE now event_name
              (rtcRequestStart name e queues now event_name d message).2.2 d message)
            queues
      ∧ assocLookup (rtcRequestStart name e queues now event_name d message).2.2
          (rtcRequestStart name e queues now event_name d message).1
          = some (rtcRequestTDE now event_name
              (rtcRequestStart name e queues now event_name d message).2.2 d message)) := by
  refine ⟨?_, ?_, ?_⟩
  · intro session event args
    rfl
  · intro st session event args
    rfl
  · intro name e queues now event_name d message
    exact ⟨rfl, assocLookup_set_self _ _ _⟩

/-- The response half of the duplex receiver never touches the send
queue. -/
theorem receiverOnResponse_sending (st : WSState) (p : Packet) :
    (receiverOnResponse st p).sending = st.sending := by
  unfold receiverOnResponse
  cases assocLookup p.session st.waiting with
  | none => rfl
  | some slot => rfl

/-- Claim C2 (amended): in the duplex variant a response whose session
is not in the wait set is dropped silently, with no error and no change
at all to the endpoint state; in the polled variant `on_response`
instead raises `KeyError` for an absent token (which aborts the
`communicate` loop and tears the connection down). -/
theorem claimC2_amended :
    (∀ st p, assocLookup p.session st.waiting = none → receiverOnResponse st p = st)
    ∧ (∀ queues d s, d.session = some s → assocLookup s queues = none →
        rtcOnResponse queues d = Except.error ("KeyError: " ++ s)) := by
  constructor
  · intro st p h
    unfold receiverOnResponse
    rw [h]
  · intro queues d s hs h
    simp only [rtcOnResponse, hs, h]

theorem claimC2_witness :
    receiverOnResponse ⟨[], []⟩ ⟨"Ok", PacketType.response, Val.vnull, ("RTWS.bob[1,ff]"), ("ev")⟩
      = ⟨[], []⟩
    ∧ rtcOnResponse [] ⟨"Ok", Val.vnull, ("m"), none, some ("Name:carol,Time:1,Nonce:ab")⟩
        = Except.error ("KeyError: " ++ "Name:carol,Time:1,Nonce:ab") :=
  ⟨claimC2_amended.1 ⟨[], []⟩ ⟨"Ok", PacketType.response, Val.vnull, ("RTWS.bob[1,ff]"), ("ev")⟩ rfl,
   claimC2_amended.2 [] ⟨"Ok", Val.vnull, ("m"), none, some ("Name:carol,Time:1,Nonce:ab")⟩
     ("Name:carol,Time:1,Nonce:ab") rfl rfl⟩

/-- Claim C2 counterexample: in the polled variant an incoming response
whose session token is absent from the wait set does not leave the
endpoint unchanged without error — `on_response` raises `KeyError`. -/
theorem claimC2_counterexample :
    rtcOnResponse [] ⟨"Ok", Val.vnull, ("m"), none, some ("Name:bob,Time:1,Nonce:ab")⟩
      = Except.error ("KeyError: Name:bob,Time:1,Nonce:ab") := rfl

/-- Claim C5 (amended): on timeout `request` fails with the Timeout
error in both variants; the duplex variant leaves the session token in
the wait set as a tombstone, and a late response is absorbed silently
(it never reaches the send queue or any caller); the polled variant
instead deletes the token, so that a late response raises `KeyError` in
`on_response`. -/
theorem claimC5_amended :
    (∀ name st e event args,
      (requestRun name st e event args WaitOutcome.timeout).2.2
        = Except.error ("Failed to request: Timeout")
      ∧ assocLookup (make_session name e).1
          (requestRun name st e event args WaitOutcome.timeout).1.waiting = some none)
    ∧ (∀ st p, (receiverOnResponse st p).sending = st.sending)
    ∧ (∀ name e queues now event_name d message,
      (rtcRequestRun name e queues now event_name d message RTCOutcome.timeout).2.2
        = Except.error ("Timeout")
      ∧ assocLookup (rtcRequestStart name e queues now event_name d message).2.2
          (rtcRequestRun name e queues now event_name d message RTCOutcome.timeout).1 = none) := by
  refine ⟨?_, receiverOnResponse_sending, ?_⟩
  · intro name st e event args
    exact ⟨rfl, assocLookup_set_self _ _ _⟩
  · intro name e queues now event_name d message
    exact ⟨rfl, assocLookup_erase_self _ _⟩

/-- The entropy supply used by concrete counterexamples: `time()` reads
`1` and `token_hex` yields `ff`. -/
def entropy0 : Entropy := ⟨fun _ => "1", fun _ => "ff", 0⟩

/-- Claim C5 counterexample: in the polled variant a timed-out request
fails with Timeout but deletes its session token from the wait set
instead of leaving a tombstone, so no entry remains for `complete` to
drop a late response against. -/
theorem claimC5_counterexample :
    (rtcRequestRun ("alice") entropy0 [] 3 ("ev") Val.vnull ("Fight") RTCOutcome.timeout).2.2
      = Except.error ("Timeout")
    ∧ assocLookup ("Name:alice,Time:1,Nonce:ff")
        (rtcRequestRun ("alice") entropy0 [] 3 ("ev") Val.vnull ("Fight") RTCOutcome.timeout).1
      = none
    ∧ rtcOnResponse
        (rtcRequestRun ("alice") entropy0 [] 3 ("ev") Val.vnull ("Fight") RTCOutcome.timeout).1
        ⟨"Ok", Val.vstr ("late"), ("m"), none, some ("Name:alice,Time:1,Nonce:ff")⟩
      = Except.error ("KeyError: Name:alice,Time:1,Nonce:ff") :=
  ⟨rfl, rfl, rfl⟩

/-- Claim C3 (amended): on teardown every remaining waiter is signaled
exactly once with the synthetic disconnect value (`None` in the duplex
variant, `response("Error", None, "Disconnected")` in the polled
variant) and every request pending on such a waiter fails with the
Disconnected error; the duplex `clean` also drops the whole wait set,
while the polled `finally` block leaves the signaled entries in the
set (they are only removed later, by the resuming `request` calls or
by the reset on the next connection). -/
theorem claimC3_amended :
    (∀ sending k v rest,
      clean (some ⟨sending, (k, v) :: rest⟩)
        = (none, ((k, v) :: rest).map (fun kv => (kv.1, none))))
    ∧ ((∀ st : WSState, ((clean (some st)).2).length = st.waiting.length
          ∨ st.waiting = [])
    ∧ requestFinish (WaitOutcome.resolved none)
        = Except.error ("Failed to request: Disconnected"))
    ∧ (∀ queues : List (String × TDE),
      (rtcDrain queues).2 = queues.map (fun kv => (kv.1, rtcDisconnectData))
      ∧ ((rtcDrain queues).2).length = queues.length
      ∧ (∀ kv, kv ∈ (rtcDrain queues).1 → kv.2.slot = some rtcDisconnectData))
    ∧ rtcClassifyResult rtcDisconnectData = Except.error ("Disconnected") := by
  refine ⟨?_, ⟨?_, rfl⟩, ?_, rfl⟩
  · intro sending k v rest
    simp [clean]
  · intro st
    by_cases h : st.waiting = []
    · right
      exact h
    · left
      simp [clean, h]
  · intro queues
    refine ⟨rfl, by simp [rtcDrain], ?_⟩
    intro kv hkv
    unfold rtcDrain at hkv
    simp only [List.mem_map] at hkv
    rcases hkv with ⟨a, _, rfl⟩
    rfl

/-- A sample polled-variant session nonce for concrete instances. -/
def sampleNonce : String := "Name:alice,Time:1,Nonce:ff"

/-- A sample armed request entry of the polled variant. -/
def sampleReqTDE : TDE := rtcRequestTDE 4 ("ev") sampleNonce Val.vnull ("Fight")

theorem claimC3_witness :
    clean (some ⟨[], [(sampleNonce, none)]⟩)
      = (none, [(sampleNonce, (none : Option Packet))])
    ∧ ((sampleNonce, TDE.mk 4 false sampleReqTDE.subject (some rtcDisconnectData))
        ∈ (rtcDrain [(sampleNonce, sampleReqTDE)]).1
      ∧ (sampleNonce, TDE.mk 4 false sampleReqTDE.subject (some rtcDisconnectData)).2.slot
        = some rtcDisconnectData) :=
  ⟨claimC3_amended.1 [] sampleNonce none [],
   ⟨by decide,
    (claimC3_amended.2.2.1 [(sampleNonce, sampleReqTDE)]).2.2
      (sampleNonce, TDE.mk 4 false sampleReqTDE.subject (some rtcDisconnectData))
      (by decide)⟩⟩

/-- Claim C3 counterexample: the polled variant's teardown signals the
waiter with the disconnect value but leaves the entry in the wait set —
the wait set is not empty afterwards. -/
theorem claimC3_counterexample :
    (rtcDrain [(sampleNonce, sampleReqTDE)]).1
      = [(sampleNonce, TDE.mk 4 false sampleReqTDE.subject (some rtcDisconnectData))]
    ∧ (rtcDrain [(sampleNonce, sampleReqTDE)]).1 ≠ [] :=
  ⟨rfl, by decide⟩

/-- Processing incoming frames only ever appends to the send queue:
each `request`-typed frame contributes exactly one response packet,
whatever its handler does. -/
theorem receiverRun_sending_length (events : List (String × RTWSHandler)) :
    ∀ (frames : List Packet) (st : WSState),
    ((receiverRun events st frames).sending).length
      = st.sending.length + countRequests frames := by
  intro frames
  induction frames with
  | nil =>
    intro st
    simp [receiverRun, countRequests]
  | cons f rest ih =>
    intro st
    have hstep : receiverRun events st (f :: rest)
        = receiverRun events (receiverHandleFrame events st f) rest := rfl
    rw [hstep, ih]
    by_cases h : f.type = PacketType.request
    · have hc : countRequests (f :: rest) = countRequests rest + 1 := by
        simp [countRequests, List.filter, h]
      have hh : (receiverHandleFrame events st f).sending
          = st.sending ++ [_process_request events f] := by
        simp [receiverHandleFrame, h]
      rw [hh, hc]
      simp [List.length_append]
      omega
    · have hc : countRequests (f :: rest) = countRequests rest := by
        simp [countRequests, List.filter, h]
      have hh : (receiverHandleFrame events st f).sending = st.sending := by
        simp [receiverHandleFrame, h, receiverOnResponse_sending]
      rw [hh, hc]

/-- Claim C4: a handler that raises yields a response packet with
status `Error` carrying a description of the failure (the formatted
traceback in the duplex variant, `ClassName: message` in the polled
variant); the dispatcher is total — every request frame still produces
exactly one response-typed packet echoing its session, and the receiver
keeps processing all later frames. -/
theorem claimC4 :
    (∀ events request h exc, assocLookup request.event events = some h →
      h request.data = Except.error exc →
      _process_request events request
        = _make_response request (Val.vstr (format_exc exc)) ("Error"))
    ∧ (∀ events request, (_process_request events request).type = PacketType.response
        ∧ (_process_request events request).session = request.session)
    ∧ (∀ events st frames, ((receiverRun events st frames).sending).length
        = st.sending.length + countRequests frames)
    ∧ (∀ queues now exc session,
      _wrap_error_handling queues now (Except.error exc) session
        = rtcResponse queues now session Val.vnull ("Error")
            (exc.className ++ ": " ++ exc.msg)
      ∧ assocLookup session (_wrap_error_handling queues now (Except.error exc) session)
          = some ⟨now, false,
              (SubjKind.response,
               ⟨"Error", Val.vnull, exc.className ++ ": " ++ exc.msg, none, some session⟩),
              none⟩) := by
  refine ⟨?_, ?_, ?_, ?_⟩
  · intro events request h exc hlook hrun
    unfold _process_request
    rw [hlook]
    simp only [hrun]
  · intro events request
    unfold _process_request
    cases assocLookup request.event events with
    | none =>
      exact ⟨rfl, rfl⟩
    | some h =>
      dsimp only
      cases h request.data with
      | ok v =>
        exact ⟨rfl, rfl⟩
      | error exc =>
        exact ⟨rfl, rfl⟩
  · intro events st frames
    exact receiverRun_sending_length events frames st
  · intro queues now exc session
    exact ⟨rfl, assocLookup_set_self _ _ _⟩

/-- A handler that always raises `ValueError("boom")`. -/
def boomExc : Exc := ⟨"ValueError", "boom"⟩

/-- The registered duplex-variant handler for the witness instance. -/
def boomHandler : RTWSHandler := fun _ => Except.error boomExc

/-- A concrete incoming request frame addressed to `boom`. -/
def boomReq : Packet := ⟨"Ok", PacketType.request, Val.vnull, ("RTWS.alice[1,ab]"), ("boom")⟩

theorem claimC4_witness :
    assocLookup boomReq.event [(("boom"), boomHandler)] = some boomHandler
    ∧ boomHandler boomReq.data = Except.error boomExc
    ∧ _process_request [(("boom"), boomHandler)] boomReq
        = _make_response boomReq (Val.vstr (format_exc boomExc)) ("Error") :=
  ⟨rfl, rfl,
   claimC4.1 [(("boom"), boomHandler)] boomReq boomHandler boomExc rfl rfl⟩

/-- Whether string `s` begins with `p` (character-wise). -/
def strStartsWith (s p : String) : Bool :=
  decide (s.data.take p.data.length = p.data)

/-- Appending anything after a string keeps it as the beginning. -/
theorem strStartsWith_append (pre s : String) :
    strStartsWith (pre ++ s) pre = true := by
  unfold strStartsWith
  rw [String.data_append, List.take_left]
  simp

/-- The dispatcher's miss message begins with `EventNotFound` whatever
the event name is. -/
theorem strStartsWith_eventNotFound (ev : String) :
    strStartsWith ("EventNotFound: " ++ ev) ("EventNotFound") = true := by
  have h1 : ("EventNotFound: " : String) = "EventNotFound" ++ (": ") := rfl
  rw [h1, String.append_assoc]
  exact strStartsWith_append ("EventNotFound") ((": ") ++ ev)

/-- Claim C6 (amended): in the polled variant a request for an
unregistered event is answered by a response entry with status `Error`
whose `message` field is `EventNotFound: <event>`, so the caller's
request fails with an error whose message begins `EventNotFound`; in
the duplex variant the miss raises `AssertionError` inside the
dispatcher, the response's payload is the formatted traceback of that
assertion (it does not begin with `EventNotFound`), and the caller's
error message begins with `Failed to request:` instead. -/
theorem claimC6_amended :
    (∀ events queues now ev s dv,
      assocLookup ev events = none →
      rtcOnRequest events queues now ⟨"Ok", dv, ("Fight"), some ev, some s⟩
        = Except.ok (rtcResponse queues now s Val.vnull ("Error") ("EventNotFound: " ++ ev))
      ∧ assocLookup s (rtcResponse queues now s Val.vnull ("Error") ("EventNotFound: " ++ ev))
          = some ⟨now, false,
              (SubjKind.response, ⟨"Error", Val.vnull, "EventNotFound: " ++ ev, none, some s⟩),
              none⟩
      ∧ rtcClassifyResult ⟨"Error", Val.vnull, "EventNotFound: " ++ ev, none, some s⟩
          = Except.error ("EventNotFound: " ++ ev)
      ∧ strStartsWith ("EventNotFound: " ++ ev) ("EventNotFound") = true)
    ∧ (∀ events req, assocLookup req.event events = none →
      _process_request events req
        = _make_response req
            (Val.vstr (format_exc ⟨"AssertionError", "イベントが見つかりませんでした。"⟩)) ("Error")
      ∧ strStartsWith (format_exc ⟨"AssertionError", "イベントが見つかりませんでした。"⟩)
          ("EventNotFound") = false) := by
  constructor
  · intro events queues now ev s dv hmiss
    refine ⟨?_, assocLookup_set_self _ _ _, rfl, strStartsWith_eventNotFound ev⟩
    simp only [rtcOnRequest, hmiss]
  · intro events req hmiss
    refine ⟨?_, by decide⟩
    unfold _process_request
    rw [hmiss]

theorem claimC6_witness :
    assocLookup ("does_not_exist") ([] : List (String × RTCHandler)) = none
    ∧ rtcOnRequest [] [] 5 ⟨"Ok", Val.vnull, ("Fight"), some ("does_not_exist"), some sampleNonce⟩
        = Except.ok (rtcResponse [] 5 sampleNonce Val.vnull ("Error")
            ("EventNotFound: " ++ "does_not_exist"))
    ∧ strStartsWith ("EventNotFound: " ++ "does_not_exist") ("EventNotFound") = true :=
  ⟨rfl,
   (claimC6_amended.1 [] [] 5 ("does_not_exist") sampleNonce Val.vnull rfl).1,
   (claimC6_amended.1 [] [] 5 ("does_not_exist") sampleNonce Val.vnull rfl).2.2.2⟩

/-- The traceback payload produced by the duplex dispatcher on a
handler-registry miss. -/
def assertionTraceback : String :=
  format_exc ⟨"AssertionError", "イベントが見つかりませんでした。"⟩

/-- A concrete request frame for an unregistered event. -/
def enfReq : Packet :=
  ⟨"Ok", PacketType.request, Val.vnull, ("RTWS.alice[1,ab]"), ("does_not_exist")⟩

/-- Claim C6 counterexample: in the duplex variant the `Error` response
for an unregistered event carries a formatted `AssertionError`
traceback that does not begin with `EventNotFound`, and the caller's
error message begins with `Failed to request:` rather than
`EventNotFound`. -/
theorem claimC6_counterexample :
    _process_request [] enfReq
      = _make_response enfReq (Val.vstr assertionTraceback) ("Error")
    ∧ strStartsWith assertionTraceback ("EventNotFound") = false
    ∧ requestFinish (WaitOutcome.resolved
        (some (_make_response enfReq (Val.vstr assertionTraceback) ("Error"))))
        = Except.error ("Failed to request:\n" ++ assertionTraceback)
    ∧ strStartsWith ("Failed to request:\n" ++ assertionTraceback) ("EventNotFound") = false :=
  ⟨rfl, by decide, rfl, by decide⟩

/-- Claim C9: on a non-empty wait set (with no future timestamps)
`get_queue` returns an entry with minimum `created_at`; the first-turn
sender marks an unsent entry as sent before transmitting it (and an
entry already marked is not transmitted again); after sending, the
entry is deleted from the wait set exactly when it is a response, while
a request entry stays keyed. -/
theorem claimC9 (now : Nat) (queues : List (String × TDE))
    (hne : queues ≠ []) (hca : ∀ e ∈ queues, e.2.created_at ≤ now) :
    ∃ k v, get_queue now queues = some (k, v) ∧ (k, v) ∈ queues
      ∧ (∀ e ∈ queues, v.created_at ≤ e.2.created_at)
      ∧ (v.sent = false → v.subject.1 = SubjKind.request →
          rtcFirstTurnSend now queues
            = Except.ok (assocSet k ⟨v.created_at, true, v.subject, v.slot⟩ queues,
                some v.subject.2)
          ∧ assocLookup k (assocSet k ⟨v.created_at, true, v.subject, v.slot⟩ queues)
            = some ⟨v.created_at, true, v.subject, v.slot⟩)
      ∧ (v.sent = true → v.subject.1 = SubjKind.request →
          rtcFirstTurnSend now queues = Except.ok (queues, none))
      ∧ (∀ s, v.sent = false → v.subject.1 = SubjKind.response →
          v.subject.2.session = some s →
          rtcFirstTurnSend now queues
            = Except.ok
                (assocErase s (assocSet k ⟨v.created_at, true, v.subject, v.slot⟩ queues),
                 some v.subject.2)
          ∧ assocLookup s
              (assocErase s (assocSet k ⟨v.created_at, true, v.subject, v.slot⟩ queues))
            = none) := by
  obtain ⟨p, hp, hmem, hmin⟩ := get_queue_min now queues hne hca
  obtain ⟨k, v⟩ := p
  refine ⟨k, v, hp, hmem, hmin, ?_, ?_, ?_⟩
  · intro hs hreq
    refine ⟨?_, assocLookup_set_self _ _ _⟩
    unfold rtcFirstTurnSend
    rw [hp]
    simp [hs, hreq]
  · intro hs hreq
    unfold rtcFirstTurnSend
    rw [hp]
    simp [hs, hreq]
  · intro s hs hresp hsess
    refine ⟨?_, assocLookup_erase_self _ _⟩
    unfold rtcFirstTurnSend
    rw [hp]
    simp [hs, hresp, hsess]

theorem claimC9_witness :
    ([(sampleNonce, sampleReqTDE)] ≠ ([] : List (String × TDE)))
    ∧ (∀ e ∈ [(sampleNonce, sampleReqTDE)], e.2.created_at ≤ 10)
    ∧ (∃ k v, get_queue 10 [(sampleNonce, sampleReqTDE)] = some (k, v)
      ∧ (k, v) ∈ [(sampleNonce, sampleReqTDE)]
      ∧ (∀ e ∈ [(sampleNonce, sampleReqTDE)], v.created_at ≤ e.2.created_at)
      ∧ (v.sent = false → v.subject.1 = SubjKind.request →
          rtcFirstTurnSend 10 [(sampleNonce, sampleReqTDE)]
            = Except.ok
                (assocSet k ⟨v.created_at, true, v.subject, v.slot⟩
                  [(sampleNonce, sampleReqTDE)],
                 some v.subject.2)
          ∧ assocLookup k (assocSet k ⟨v.created_at, true, v.subject, v.slot⟩
                [(sampleNonce, sampleReqTDE)])
            = some ⟨v.created_at, true, v.subject, v.slot⟩)
      ∧ (v.sent = true → v.subject.1 = SubjKind.request →
          rtcFirstTurnSend 10 [(sampleNonce, sampleReqTDE)]
            = Except.ok ([(sampleNonce, sampleReqTDE)], none))
      ∧ (∀ s, v.sent = false → v.subject.1 = SubjKind.response →
          v.subject.2.session = some s →
          rtcFirstTurnSend 10 [(sampleNonce, sampleReqTDE)]
            = Except.ok
                (assocErase s (assocSet k ⟨v.created_at, true, v.subject, v.slot⟩
                  [(sampleNonce, sampleReqTDE)]),
                 some v.subject.2)
          ∧ assocLookup s (assocErase s (assocSet k
                ⟨v.created_at, true, v.subject, v.slot⟩ [(sampleNonce, sampleReqTDE)]))
            = none)) :=
  ⟨by decide, by decide, claimC9 10 [(sampleNonce, sampleReqTDE)] (by decide) (by decide)⟩
